import Mathlib

/-!
Shallow embedding of the Shopify product-publishing pipeline
(`routes/shopify.js` of the CraftConnect backend): image decoding and
batch upload (`router.post('/upload-product')` handler), the asset
uploader `uploadImageToShopify`, and the product creator
`createShopifyProduct`.  Network calls (axios GET/POST) and the `sharp`
re-encoder are modelled as deterministic oracles packaged in `ImgEnv` /
an `AxiosResult` argument; everything else is translated line by line
from the source.
-/

/-- Character-list prefix test; models JavaScript `String.prototype.startsWith`
(`p` is the pattern, tested against the front of `l`). -/
def hasPref : List Char → List Char → Bool
  | [], _ => true
  | _ :: _, [] => false
  | p :: ps, c :: cs => p == c && hasPref ps cs

/-- Models `s.startsWith(pat)` in JavaScript. -/
def jsStartsWith (s pat : String) : Bool :=
  hasPref pat.data s.data

/-- Replace the first occurrence of the substring `http://` by `https://`,
scanning left to right; models the JavaScript expression
`url.replace('http://', 'https://')` (string pattern = first occurrence
only), used at lines 85 and 125 of the source. -/
def replaceHttpOnce : List Char → List Char
  | 'h' :: 't' :: 't' :: 'p' :: ':' :: '/' :: '/' :: rest =>
      ['h', 't', 't', 'p', 's', ':', '/', '/'] ++ rest
  | c :: cs => c :: replaceHttpOnce cs
  | [] => []

/-- String-level wrapper for `replaceHttpOnce`. -/
def replaceFirstHttp (s : String) : String :=
  String.mk (replaceHttpOnce s.data)

/-- Models the JavaScript regex replace `shopUrl.replace(/^https?:\/\//, '')`
(lines 263, 284, 345, 385): an anchored match strips a leading
`https://` or `http://`, anything else is returned unchanged. -/
def stripScheme (s : String) : String :=
  match s.data with
  | 'h' :: 't' :: 't' :: 'p' :: 's' :: ':' :: '/' :: '/' :: rest => String.mk rest
  | 'h' :: 't' :: 't' :: 'p' :: ':' :: '/' :: '/' :: rest => String.mk rest
  | _ => s

/-- Models JavaScript `s.split(',')` (every comma is a separator; an input
without commas yields the one-element list). -/
def jsSplitComma : List Char → List (List Char)
  | [] => [[]]
  | ',' :: rest => [] :: jsSplitComma rest
  | c :: rest =>
    match jsSplitComma rest with
    | seg :: segs => (c :: seg) :: segs
    | [] => [[c]]

/-- Models JavaScript `s.substring(0, n)` (line 145:
`productData.description.substring(0, 160)`). -/
def jsSubstring (s : String) (n : Nat) : String :=
  String.mk (s.data.take n)

/-- Models the JavaScript default `v || dflt` for an optional string field:
`undefined` and the empty string are falsy (lines 131-133, 143). -/
def jsOrString (v : Option String) (dflt : String) : String :=
  match v with
  | some s => if s == "" then dflt else s
  | none => dflt

/-- Models the JavaScript default `v || dflt` for an optional numeric field:
`undefined` and `0` are falsy (line 137: `productData.inventory || 1`). -/
def jsOrInt (v : Option Int) (dflt : Int) : Int :=
  match v with
  | some n => if n == 0 then dflt else n
  | none => dflt

/-- The `upload` object of a successful asset-upload response body
(`{ upload: { id, public_url, key } }`, read at lines 81-91). -/
structure UploadObj where
  id : Nat
  public_url : String
  key : String
deriving DecidableEq

/-- Body of a 2xx response from the uploads endpoint; `upload` is `none`
when the body lacks the `upload` object (line 81's truthiness test). -/
structure UploadBody where
  upload : Option UploadObj
deriving DecidableEq

/-- Body attached to a non-2xx axios error (`error.response.data`); only
the `errors` field is ever read (line 183), modelled as the structured
field-level errors `{ field: [messages] }` the platform sends on 422. -/
structure ErrBody where
  errors : Option (List (String × List String))
deriving DecidableEq

/-- Outcome of one axios request, as observed by the calling code:
`ok data` is a 2xx response (with `data = none` when `response.data` is
falsy); `httpErr status msg data` is a non-2xx response (`error.response`
set, `msg` = `error.message`); `noResponse msg` is a transport-level
failure with no response object (timeout, DNS, or an error thrown inside
the `try` block itself). -/
inductive AxiosResult (α : Type) where
  | ok (data : Option α)
  | httpErr (status : Nat) (msg : String) (data : Option ErrBody)
  | noResponse (msg : String)
deriving DecidableEq

/-- Return value of `uploadImageToShopify` on success (lines 87-92). -/
structure UploadResult where
  success : Bool
  uploadId : Nat
  publicUrl : String
  filename : String
deriving DecidableEq

/-- The `apiUrl` built at line 55 of `uploadImageToShopify`. -/
def uploadApiUrl (shopUrl : String) : String :=
  "https://" ++ shopUrl ++ "/admin/api/2023-10/uploads.json"

/-- The `apiUrl` built at line 116 of `createShopifyProduct`. -/
def productApiUrl (shopUrl : String) : String :=
  "https://" ++ shopUrl ++ "/admin/api/2023-10/products.json"

/-- Embedding of `uploadImageToShopify` (lines 53-111): the axios POST to
`uploadApiUrl shopUrl` is the oracle argument `resp`.  A 2xx body with
the `upload` object yields the success record, with `public_url` passed
through `replace('http://', 'https://')` (line 85); a 2xx body without
it throws `Invalid response from Shopify upload API` inside the `try`,
which the function's own `catch` re-wraps through its final branch
(lines 93-94 then 96-109, where `error.response` is `undefined`);
non-2xx statuses map through the 401 / 422 / generic branches. -/
def uploadImageToShopify (shopUrl : String) (resp : AxiosResult UploadBody) :
    Except String UploadResult :=
  match resp with
  | .ok data =>
    match data with
    | some body =>
      match body.upload with
      | some u =>
        .ok { success := true, uploadId := u.id,
              publicUrl := replaceFirstHttp u.public_url, filename := u.key }
      | none => .error "Shopify upload failed: Invalid response from Shopify upload API"
    | none => .error "Shopify upload failed: Invalid response from Shopify upload API"
  | .httpErr stat msg _ =>
    if stat == 401 then .error "Invalid Shopify access token"
    else if stat == 422 then .error "Invalid image data or format"
    else .error ("Shopify upload failed: " ++ msg)
  | .noResponse msg => .error ("Shopify upload failed: " ++ msg)

/-- Product object of a successful product-creation response
(`{ product: { id, title, handle, status, ... } }`, lines 157-168). -/
structure ProductObj where
  id : Nat
  title : String
  handle : String
  status : String
deriving DecidableEq

/-- Body of a 2xx response from the products endpoint; `product` is `none`
when the body lacks the `product` object (line 157's truthiness test). -/
structure ProductRespBody where
  product : Option ProductObj
deriving DecidableEq

/-- Return value of `createShopifyProduct` on success (lines 164-169). -/
structure ProductResult where
  success : Bool
  product : ProductObj
  productUrl : String
  adminUrl : String
deriving DecidableEq

/-- The `productData` argument of `createShopifyProduct`: the business
fields the route handler forwards (`{ title, description, price,
...otherData }`, line 282).  `price` is a number; the optional fields
are `undefined` when absent from the request body. -/
structure ProductData where
  title : String
  description : String
  price : Nat
  vendor : Option String
  productType : Option String
  status : Option String
  inventory : Option Int
  tags : Option String
deriving DecidableEq

/-- One `{ src: url }` entry of the payload's `images` array (line 142). -/
structure ImageEntry where
  src : String
deriving DecidableEq

/-- The `product` payload built at lines 127-147 and submitted as the JSON
request body to the products endpoint. -/
structure ProductPayload where
  title : String
  body_html : String
  vendor : String
  product_type : String
  status : String
  price : String
  inventory_quantity : Int
  inventory_management : String
  inventory_policy : String
  images : List ImageEntry
  tags : String
  metafields_global_title_tag : String
  metafields_global_description_tag : String
deriving DecidableEq

/-- Embedding of lines 125-147: the payload construction inside
`createShopifyProduct`, including the second unconditional
`replace('http://', 'https://')` over the incoming URL list (line 125). -/
def buildProductPayload (productData : ProductData) (imageUrls : List String) :
    ProductPayload :=
  let httpsImageUrls := imageUrls.map replaceFirstHttp
  { title := productData.title
    body_html := productData.description
    vendor := jsOrString productData.vendor "CraftConnect"
    product_type := jsOrString productData.productType "Handmade"
    status := jsOrString productData.status "draft"
    price := toString productData.price
    inventory_quantity := jsOrInt productData.inventory 1
    inventory_management := "shopify"
    inventory_policy := "deny"
    images := httpsImageUrls.map (fun url => { src := url })
    tags := jsOrString productData.tags "handmade,craft,artisan"
    metafields_global_title_tag := productData.title
    metafields_global_description_tag := jsSubstring productData.description 160 }

/-- JSON string escaping for the values that appear in error objects
(backslash and double quote), as performed by `JSON.stringify`. -/
def jsonEscape (s : String) : String :=
  String.mk ((s.data.map fun c =>
    if c == '\\' then ['\\', '\\']
    else if c == '"' then ['\\', '"']
    else [c]).flatten)

/-- Serialization of a JSON array of strings, as by `JSON.stringify`. -/
def stringifyStrList (xs : List String) : String :=
  "[" ++ String.intercalate "," (xs.map fun s => "\"" ++ jsonEscape s ++ "\"") ++ "]"

/-- Serialization of the structured field-level errors object
`\x7b field: [messages], ... \x7d`, as by `JSON.stringify(errors)` at line 184. -/
def stringifyFieldErrors (errs : List (String × List String)) : String :=
  "\x7b" ++
    String.intercalate ","
      (errs.map fun p => "\"" ++ jsonEscape p.1 ++ "\":" ++ stringifyStrList p.2) ++
  "\x7d"

/-- Models the template interpolation of `JSON.stringify(error.response.data?.errors)`
at line 184: a missing body or missing `errors` field prints as `undefined`. -/
def stringifyErrorsOpt : Option (List (String × List String)) → String
  | none => "undefined"
  | some e => stringifyFieldErrors e

/-- Embedding of `createShopifyProduct` (lines 114-189): the payload it
submits is `buildProductPayload productData imageUrls`; the axios POST to
`productApiUrl shopUrl` is the oracle argument `resp`.  A 2xx body with
the `product` object yields the success record with the derived product
and admin URLs (lines 164-169); a 2xx body without it throws inside the
`try` and is re-wrapped by the generic `catch` branch (lines 170-171 then
173-187, where `error.response` is `undefined`); a 422 surfaces
`Product validation failed: ` + `JSON.stringify` of the response's
`errors` (lines 182-184). -/
def createShopifyProduct (productData : ProductData) (imageUrls : List String)
    (shopUrl : String) (resp : AxiosResult ProductRespBody) :
    Except String ProductResult :=
  match resp with
  | .ok data =>
    match data with
    | some body =>
      match body.product with
      | some p =>
        .ok { success := true, product := p,
              productUrl := "https://" ++ shopUrl ++ "/products/" ++ p.handle,
              adminUrl := "https://" ++ shopUrl ++ "/admin/products/" ++ toString p.id }
      | none => .error "Shopify product creation failed: Invalid response from Shopify product creation API"
    | none => .error "Shopify product creation failed: Invalid response from Shopify product creation API"
  | .httpErr stat msg d =>
    if stat == 401 then .error "Invalid Shopify access token"
    else if stat == 422 then
      .error ("Product validation failed: " ++ stringifyErrorsOpt (d.bind ErrBody.errors))
    else .error ("Shopify product creation failed: " ++ msg)
  | .noResponse msg => .error ("Shopify product creation failed: " ++ msg)

/-- One element of the handler's `images` array (line 217): a string, a
raw buffer, or any other value (line 250's `else` branch). -/
inductive ImageSource where
  | str (s : String)
  | buffer (bytes : List Nat)
  | other
deriving DecidableEq

/-- Deterministic oracles for the per-image external effects of one run of
the handler: `decodeBase64 b` is `Buffer.from(b, 'base64')` (total — Node
decodes permissively and never throws on a string); `fetch url` is the
outcome of `axios.get(url)` at lines 240-243 (`none` = thrown transport
or status error); `sharpOut buf` is the outcome of the `sharp` re-encode
pipeline of lines 23-33 on `buf` (`none` = processing error, line 46);
`uploadResp buf` is the outcome of the axios POST of the processed
buffer `buf` to the uploads endpoint (lines 70-79); `now` is `Date.now()`. -/
structure ImgEnv where
  decodeBase64 : String → List Nat
  fetch : String → Option (List Nat)
  sharpOut : List Nat → Option (List Nat)
  uploadResp : List Nat → AxiosResult UploadBody
  now : Nat

/-- The normalized image produced by `processImageForShopify` (lines 41-45). -/
structure NormalizedImage where
  buffer : List Nat
  filename : String
  mimetype : String
deriving DecidableEq

/-- Models the regex replace `filename.replace(/\.[^/.]+$/, ".jpg")` at
line 43: a final dot-extension (one or more characters none of which is
a dot or slash) is replaced by `.jpg`; otherwise the name is unchanged. -/
def forceJpgExt (f : String) : String :=
  let rev := f.data.reverse
  let ext := rev.takeWhile fun c => !(c == '.') && !(c == '/')
  if ext.length == 0 then f
  else
    match rev.drop ext.length with
    | '.' :: before => String.mk (before.reverse ++ ".jpg".data)
    | _ => f

/-- Embedding of `processImageForShopify` (lines 18-50): the `sharp`
pipeline is the oracle `env.sharpOut`; on success the result carries the
re-encoded buffer, the filename with its extension forced to `.jpg`, and
the fixed mimetype; a `sharp` failure throws (modelled as `none`). -/
def processImageForShopify (env : ImgEnv) (imageBuffer : List Nat)
    (filename : String) : Option NormalizedImage :=
  match env.sharpOut imageBuffer with
  | some b => some { buffer := b, filename := forceJpgExt filename, mimetype := "image/jpeg" }
  | none => none

/-- Embedding of lines 229-252 of the handler: turn one element of the
`images` array into a raw byte buffer, or `none` when that step throws
(malformed data-URI with no comma, failed download, unrecognized string
format at line 246, unsupported type at line 251). -/
def decodeImage (env : ImgEnv) (img : ImageSource) : Option (List Nat) :=
  match img with
  | .str s =>
    if jsStartsWith s "data:image/" then
      match (jsSplitComma s.data).drop 1 with
      | b64 :: _ => some (env.decodeBase64 (String.mk b64))
      | [] => none
    else if jsStartsWith s "http://" || jsStartsWith s "https://" then
      env.fetch s
    else none
  | .buffer b => some b
  | .other => none

/-- Embedding of one iteration of the handler's per-image `try` block
(lines 228-276): decode, re-encode via `processImageForShopify` with the
generated filename (line 257), upload via `uploadImageToShopify` with
the scheme-stripped shop URL (lines 261-265), and push the result only
when `uploadResult.success` holds (line 267).  Any failure at any stage
is caught at line 273 and yields `none` (the image is skipped). -/
def processOneImage (env : ImgEnv) (shopUrl : String) (i : Nat)
    (img : ImageSource) : Option UploadResult :=
  match decodeImage env img with
  | none => none
  | some buf =>
    match processImageForShopify env buf
        ("product_image_" ++ toString (i + 1) ++ "_" ++ toString env.now ++ ".jpg") with
    | none => none
    | some processed =>
      match uploadImageToShopify (stripScheme shopUrl) (env.uploadResp processed.buffer) with
      | .error _ => none
      | .ok r => if r.success then some r else none

/-- Embedding of the handler's image loop (lines 219-278): iterate the
sources in order starting at index `k`, collecting `publicUrl` of each
successful upload into `imageUrls` and skipping failures. -/
def batchImageUrls (env : ImgEnv) (shopUrl : String) : Nat → List ImageSource → List String
  | _, [] => []
  | i, img :: rest =>
    match processOneImage env shopUrl i img with
    | some r => r.publicUrl :: batchImageUrls env shopUrl (i + 1) rest
    | none => batchImageUrls env shopUrl (i + 1) rest

/-- One record of `req.session.shopifyUploads` (lines 293-298; the
`timestamp` field is wall-clock time and is not modelled). -/
structure SessionUpload where
  productId : Nat
  title : String
  imageUrls : List String
deriving DecidableEq

/-- The session's `shopifyUploads` slot: `none` before first use
(line 289's truthiness test initializes it to `[]`). -/
structure Session where
  shopifyUploads : Option (List SessionUpload)
deriving DecidableEq

/-- The validated request body consumed at line 217 (`images` defaults to
`[]` when absent; the optional business fields are `undefined` when
absent and flow into `otherData`). -/
structure RequestBody where
  title : String
  description : String
  price : Nat
  shopUrl : String
  accessToken : String
  images : List ImageSource
  vendor : Option String
  productType : Option String
  status : Option String
  inventory : Option Int
  tags : Option String

/-- The `{ title, description, price, ...otherData }` object the handler
passes to `createShopifyProduct` at line 282 (`shopUrl`, `accessToken`
and `images` were destructured away at line 217). -/
def toProductData (b : RequestBody) : ProductData :=
  { title := b.title, description := b.description, price := b.price,
    vendor := b.vendor, productType := b.productType, status := b.status,
    inventory := b.inventory, tags := b.tags }

/-- The JSON body of the handler's response: `ok` is the 200 success
payload (lines 300-312), `err` is the 500 failure payload (lines
321-327, carrying `error.message`). -/
structure HandlerOkData where
  product : ProductObj
  productUrl : String
  adminUrl : String
  imageUrls : List String
  imageCount : Nat
deriving DecidableEq

/-- Outcome of the handler, success or the 500 error response. -/
inductive HandlerResult where
  | ok (d : HandlerOkData)
  | err (msg : String)
deriving DecidableEq

/-- Embedding of the `/upload-product` route handler body after
validation (lines 207-329): run the image batch, call
`createShopifyProduct` with the collected URLs and the scheme-stripped
shop URL (lines 281-286), and on success append the upload record to the
session (lines 288-298) and answer with the success payload; any thrown
error is caught at line 314 and answered as a 500 with the error's
message, leaving the session untouched. -/
def uploadProductHandler (env : ImgEnv) (productResp : AxiosResult ProductRespBody)
    (body : RequestBody) (session : Session) : HandlerResult × Session :=
  let imageUrls := batchImageUrls env body.shopUrl 0 body.images
  match createShopifyProduct (toProductData body) imageUrls
      (stripScheme body.shopUrl) productResp with
  | .error msg => (.err msg, session)
  | .ok productResult =>
    let uploads :=
      (match session.shopifyUploads with
       | some u => u
       | none => []) ++
      [{ productId := productResult.product.id,
         title := productResult.product.title,
         imageUrls := imageUrls }]
    (.ok { product := productResult.product,
           productUrl := productResult.productUrl,
           adminUrl := productResult.adminUrl,
           imageUrls := imageUrls,
           imageCount := imageUrls.length },
     { shopifyUploads := some uploads })

/-- The product payload submitted by the handler's `createShopifyProduct`
call: `buildProductPayload` applied to the forwarded business fields and
the URL list collected by the image batch (lines 281-286 feeding lines
125-147). -/
def handlerSubmittedPayload (env : ImgEnv) (body : RequestBody) : ProductPayload :=
  buildProductPayload (toProductData body) (batchImageUrls env body.shopUrl 0 body.images)

/-- The URL the handler's asset-upload requests are issued against:
`uploadApiUrl` applied to the scheme-stripped shop URL (lines 261-265
feeding line 55). -/
def handlerUploadUrl (shopUrl : String) : String :=
  uploadApiUrl (stripScheme shopUrl)

/-- The URL the handler's product-creation request is issued against:
`productApiUrl` applied to the scheme-stripped shop URL (lines 281-286
feeding line 116). -/
def handlerProductUrl (shopUrl : String) : String :=
  productApiUrl (stripScheme shopUrl)

/-- The error messages produced by the code's 422 branches (lines 105-106
and 182-184), the branches the spec's error taxonomy labels
`ValidationError` (`validation failed`, with the structured field errors
attached in the product case). -/
def isValidationErrorMsg (m : String) : Bool :=
  m == "Invalid image data or format" ||
    hasPref "Product validation failed:".data m.data

/-- Environment in which every per-image external effect fails (unreachable
network, `sharp` rejecting every buffer). -/
def envNone : ImgEnv :=
  { decodeBase64 := fun _ => []
    fetch := fun _ => none
    sharpOut := fun _ => none
    uploadResp := fun _ => .noResponse "network down"
    now := 0 }

/-- Environment whose asset store accepts the buffers `[1]` and `[2]`,
answering with `http://` URLs, and where remote image downloads fail. -/
def envBatch : ImgEnv :=
  { decodeBase64 := fun _ => []
    fetch := fun _ => none
    sharpOut := fun b => some b
    uploadResp := fun b =>
      if b = [1] then .ok (some { upload := some { id := 1, public_url := "http://cdn.example/a.jpg", key := "a" } })
      else if b = [2] then .ok (some { upload := some { id := 2, public_url := "http://cdn.example/b.jpg", key := "b" } })
      else .noResponse "network down"
    now := 0 }

/-- Environment whose asset store answers with an `ftp://` public URL. -/
def envFtp : ImgEnv :=
  { decodeBase64 := fun _ => []
    fetch := fun _ => none
    sharpOut := fun b => some b
    uploadResp := fun _ =>
      .ok (some { upload := some { id := 7, public_url := "ftp://cdn.example/a.jpg", key := "a.jpg" } })
    now := 0 }

/-- Batch of three sources whose middle element is a remote URL that fails
to download under `envBatch`. -/
def srcsBatch : List ImageSource :=
  [.buffer [1], .str "http://img.example/x.png", .buffer [2]]

/-- Request body carrying `srcsBatch` as its image list. -/
def bodyBatch : RequestBody :=
  { title := "Vase", description := "A vase", price := 30,
    shopUrl := "shop.example", accessToken := "tok",
    images := srcsBatch,
    vendor := none, productType := none, status := none,
    inventory := none, tags := none }

/-- Request body with a single raw-buffer image, used against `envFtp`. -/
def bodyFtp : RequestBody :=
  { title := "Bowl", description := "A bowl", price := 12,
    shopUrl := "shop.example", accessToken := "tok",
    images := [.buffer [1]],
    vendor := none, productType := none, status := none,
    inventory := none, tags := none }

/-- Request body whose description is 161 characters long. -/
def bodyLongDesc : RequestBody :=
  { title := "Rug", description := String.mk (List.replicate 161 'a'), price := 99,
    shopUrl := "shop.example", accessToken := "tok",
    images := [],
    vendor := none, productType := none, status := none,
    inventory := none, tags := none }

/-- Request body whose caller-supplied inventory is `0`. -/
def bodyInvZero : RequestBody :=
  { title := "Mug", description := "A mug", price := 8,
    shopUrl := "shop.example", accessToken := "tok",
    images := [],
    vendor := none, productType := none, status := none,
    inventory := some 0, tags := none }

/-- Request body with two images that both fail under `envNone`. -/
def bodyAllFail : RequestBody :=
  { title := "Hat", description := "A hat", price := 15,
    shopUrl := "http://shop.example", accessToken := "tok",
    images := [.buffer [1], .str "https://img.example/y.png"],
    vendor := none, productType := none, status := none,
    inventory := none, tags := none }

lemma hasPref_append (p t : List Char) : hasPref p (p ++ t) = true := by
  induction p with
  | nil => rfl
  | cons c cs ih => simp [hasPref, ih]

lemma replaceHttpOnce_http_start (l : List Char) :
    replaceHttpOnce ('h' :: 't' :: 't' :: 'p' :: ':' :: '/' :: '/' :: l) =
      'h' :: 't' :: 't' :: 'p' :: 's' :: ':' :: '/' :: '/' :: l := rfl

lemma replaceHttpOnce_https_start (l : List Char) :
    replaceHttpOnce ('h' :: 't' :: 't' :: 'p' :: 's' :: ':' :: '/' :: '/' :: l) =
      'h' :: 't' :: 't' :: 'p' :: 's' :: ':' :: '/' :: '/' :: replaceHttpOnce l := rfl

lemma replaceFirstHttp_secure (s r : String)
    (h : s = "http://" ++ r ∨ s = "https://" ++ r) :
    jsStartsWith (replaceFirstHttp s) "https://" = true := by
  rcases h with h | h
  · subst h
    cases r with
    | mk l =>
      show hasPref "https://".data (replaceHttpOnce ("http://" ++ String.mk l).data) = true
      have e : ("http://" ++ String.mk l).data = 'h' :: 't' :: 't' :: 'p' :: ':' :: '/' :: '/' :: l := rfl
      rw [e, replaceHttpOnce_http_start]
      exact hasPref_append "https://".data l
  · subst h
    cases r with
    | mk l =>
      show hasPref "https://".data (replaceHttpOnce ("https://" ++ String.mk l).data) = true
      have e : ("https://" ++ String.mk l).data = 'h' :: 't' :: 't' :: 'p' :: 's' :: ':' :: '/' :: '/' :: l := rfl
      rw [e, replaceHttpOnce_https_start]
      exact hasPref_append "https://".data (replaceHttpOnce l)

/-- C1 (counterexample to the claim as stated): the asset store answers a
successful upload with the `ftp://`-scheme `public_url`
`ftp://cdn.example/img.jpg`; the upload succeeds but the URL handed back
is returned unchanged — its scheme is not `https`. -/
theorem claim_C1_counterexample :
    uploadImageToShopify "shop.example"
      (.ok (some { upload := some { id := 7, public_url := "ftp://cdn.example/img.jpg", key := "k" } })) =
      .ok { success := true, uploadId := 7, publicUrl := "ftp://cdn.example/img.jpg", filename := "k" } ∧
    jsStartsWith "ftp://cdn.example/img.jpg" "https://" = false :=
  ⟨rfl, rfl⟩

/-- C1 (amended): for every successful upload whose upstream `public_url`
begins with the literal `http://` or `https://`, the URL handed back
begins with `https://`; the rewrite — replacement of the first occurrence
of `http://` by `https://` — is applied both at the uploader and again to
every URL when the product payload is built. -/
theorem claim_C1 (shopUrl : String) (u : UploadObj) (r : String)
    (h : u.public_url = "http://" ++ r ∨ u.public_url = "https://" ++ r) :
    uploadImageToShopify shopUrl (.ok (some { upload := some u })) =
      .ok { success := true, uploadId := u.id,
            publicUrl := replaceFirstHttp u.public_url, filename := u.key } ∧
    jsStartsWith (replaceFirstHttp u.public_url) "https://" = true ∧
    ∀ (pd : ProductData) (urls : List String) (url r' : String),
      url ∈ urls → (url = "http://" ++ r' ∨ url = "https://" ++ r') →
      ImageEntry.mk (replaceFirstHttp url) ∈ (buildProductPayload pd urls).images ∧
      jsStartsWith (replaceFirstHttp url) "https://" = true := by
  refine ⟨rfl, replaceFirstHttp_secure u.public_url r h, ?_⟩
  intro pd urls url r' hmem hor
  constructor
  · show ImageEntry.mk (replaceFirstHttp url) ∈ (urls.map replaceFirstHttp).map ImageEntry.mk
    exact List.mem_map_of_mem _ (List.mem_map_of_mem _ hmem)
  · exact replaceFirstHttp_secure url r' hor

/-- C1 (witness): the amended theorem applied to an upstream `http://`
URL gives back the `https://` form. -/
theorem claim_C1_witness :
    uploadImageToShopify "shop.example"
      (.ok (some { upload := some { id := 3, public_url := "http://cdn.example/c.jpg", key := "c" } })) =
      .ok { success := true, uploadId := 3, publicUrl := "https://cdn.example/c.jpg", filename := "c" } ∧
    jsStartsWith "https://cdn.example/c.jpg" "https://" = true := by
  have h := claim_C1 "shop.example" { id := 3, public_url := "http://cdn.example/c.jpg", key := "c" }
    "cdn.example/c.jpg" (Or.inl rfl)
  exact ⟨h.1, h.2.1⟩

/-- C6 (counterexample to the claim as stated): a 2xx upload response whose
body lacks the `upload` object makes the operation fail, but the error is
the generic wrapper `Shopify upload failed: Invalid response from Shopify
upload API` — the catch-all branch the spec maps to a transport failure —
not one of the code's 422/validation-branch errors. -/
theorem claim_C6_counterexample :
    uploadImageToShopify "shop.example" (.ok none) =
      .error "Shopify upload failed: Invalid response from Shopify upload API" ∧
    isValidationErrorMsg "Shopify upload failed: Invalid response from Shopify upload API" = false :=
  ⟨rfl, rfl⟩

/-- C6 (amended): for every upstream 2xx response to an asset upload or
product creation whose body lacks the expected success shape (no `upload`
object / no `product` object), the operation fails — but with the generic
wrapped error (`... failed: Invalid response from ... API`) produced by
re-catching the shape-check throw, not with a validation-branch error. -/
theorem claim_C6 (shopUrl shop2 : String) (d : Option UploadBody)
    (pd : ProductData) (urls : List String) (d2 : Option ProductRespBody)
    (h : d = none ∨ d = some { upload := none })
    (h2 : d2 = none ∨ d2 = some { product := none }) :
    uploadImageToShopify shopUrl (.ok d) =
      .error "Shopify upload failed: Invalid response from Shopify upload API" ∧
    createShopifyProduct pd urls shop2 (.ok d2) =
      .error "Shopify product creation failed: Invalid response from Shopify product creation API" := by
  constructor
  · rcases h with h | h <;> subst h <;> rfl
  · rcases h2 with h2 | h2 <;> subst h2 <;> rfl

/-- C6 (witness): the amended theorem at a concrete 2xx response with an
empty body. -/
theorem claim_C6_witness :
    uploadImageToShopify "s.example" (.ok (some { upload := none })) =
      .error "Shopify upload failed: Invalid response from Shopify upload API" ∧
    createShopifyProduct
      { title := "T", description := "D", price := 1, vendor := none,
        productType := none, status := none, inventory := none, tags := none }
      [] "s.example" (.ok (some { product := none })) =
      .error "Shopify product creation failed: Invalid response from Shopify product creation API" :=
  claim_C6 "s.example" "s.example" (some { upload := none })
    { title := "T", description := "D", price := 1, vendor := none,
      productType := none, status := none, inventory := none, tags := none }
    [] (some { product := none }) (Or.inr rfl) (Or.inr rfl)

/-- C7: when the description is longer than 160 characters, the submitted
payload's meta-description is exactly its first 160 characters (length
exactly 160) while `body_html` carries the full description untruncated. -/
theorem claim_C7 (env : ImgEnv) (body : RequestBody)
    (h : 160 < body.description.data.length) :
    (handlerSubmittedPayload env body).metafields_global_description_tag.data =
      body.description.data.take 160 ∧
    (handlerSubmittedPayload env body).metafields_global_description_tag.data.length = 160 ∧
    (handlerSubmittedPayload env body).body_html = body.description := by
  refine ⟨rfl, ?_, rfl⟩
  show (body.description.data.take 160).length = 160
  rw [List.length_take]
  omega

/-- C7 (witness): the theorem at a 161-character description. -/
theorem claim_C7_witness :
    160 < bodyLongDesc.description.data.length ∧
    ((handlerSubmittedPayload envNone bodyLongDesc).metafields_global_description_tag.data =
        bodyLongDesc.description.data.take 160 ∧
      (handlerSubmittedPayload envNone bodyLongDesc).metafields_global_description_tag.data.length = 160 ∧
      (handlerSubmittedPayload envNone bodyLongDesc).body_html = bodyLongDesc.description) := by
  have h : 160 < bodyLongDesc.description.data.length := by
    simp [bodyLongDesc]
  exact ⟨h, claim_C7 envNone bodyLongDesc h⟩

/-- C8: a shop identifier passed with an `http://` or `https://` prefix is
stripped of that prefix, and both the asset-upload and product-creation
requests are issued against the `https://` form of the host. -/
theorem claim_C8 (r : String) :
    handlerUploadUrl ("http://" ++ r) = "https://" ++ r ++ "/admin/api/2023-10/uploads.json" ∧
    handlerUploadUrl ("https://" ++ r) = "https://" ++ r ++ "/admin/api/2023-10/uploads.json" ∧
    handlerProductUrl ("http://" ++ r) = "https://" ++ r ++ "/admin/api/2023-10/products.json" ∧
    handlerProductUrl ("https://" ++ r) = "https://" ++ r ++ "/admin/api/2023-10/products.json" := by
  have h1 : stripScheme ("http://" ++ r) = r := by cases r with | mk l => rfl
  have h2 : stripScheme ("https://" ++ r) = r := by cases r with | mk l => rfl
  refine ⟨?_, ?_, ?_, ?_⟩ <;>
    simp [handlerUploadUrl, handlerProductUrl, uploadApiUrl, productApiUrl, h1, h2]

/-- C9: a publish call whose caller-supplied inventory is absent or `0`
submits `inventory_quantity = 1` (the `||` default treats `0` like a
missing value), and no submitted payload ever has `inventory_quantity = 0`. -/
theorem claim_C9 (env : ImgEnv) (body : RequestBody) :
    ((body.inventory = none ∨ body.inventory = some 0) →
      (handlerSubmittedPayload env body).inventory_quantity = 1) ∧
    (handlerSubmittedPayload env body).inventory_quantity ≠ 0 := by
  have e : (handlerSubmittedPayload env body).inventory_quantity = jsOrInt body.inventory 1 := rfl
  rw [e]
  constructor
  · rintro (h | h) <;> simp [jsOrInt, h]
  · unfold jsOrInt
    cases body.inventory with
    | none => simp
    | some n =>
      by_cases hn : n = 0
      · simp [hn]
      · simp [hn]

/-- C9 (witness): the theorem at a request body carrying `inventory = 0`. -/
theorem claim_C9_witness :
    (handlerSubmittedPayload envNone bodyInvZero).inventory_quantity = 1 ∧
    (handlerSubmittedPayload envNone bodyInvZero).inventory_quantity ≠ 0 :=
  ⟨(claim_C9 envNone bodyInvZero).1 (Or.inr rfl), (claim_C9 envNone bodyInvZero).2⟩

/-- C10: a string image source starting with none of `data:image/`,
`http://`, `https://`, and likewise a non-string non-buffer source, is
silently dropped: it produces no upload result and the batch simply
continues with the remaining sources. -/
theorem claim_C10 (env : ImgEnv) (shopUrl : String) (i : Nat) (s : String)
    (h1 : jsStartsWith s "data:image/" = false)
    (h2 : jsStartsWith s "http://" = false)
    (h3 : jsStartsWith s "https://" = false) :
    processOneImage env shopUrl i (.str s) = none ∧
    processOneImage env shopUrl i .other = none ∧
    (∀ rest, batchImageUrls env shopUrl i (.str s :: rest) =
      batchImageUrls env shopUrl (i + 1) rest) ∧
    (∀ rest, batchImageUrls env shopUrl i (.other :: rest) =
      batchImageUrls env shopUrl (i + 1) rest) := by
  have hstr : processOneImage env shopUrl i (.str s) = none := by
    simp [processOneImage, decodeImage, h1, h2, h3]
  have hoth : processOneImage env shopUrl i .other = none := rfl
  refine ⟨hstr, hoth, ?_, ?_⟩
  · intro rest; simp [batchImageUrls, hstr]
  · intro rest; simp [batchImageUrls, hoth]

/-- C10 (witness): the theorem at the unrecognized source `ftp://example.com/a.png`. -/
theorem claim_C10_witness :
    processOneImage envNone "shop.example" 0 (.str "ftp://example.com/a.png") = none ∧
    batchImageUrls envNone "shop.example" 0 [.str "ftp://example.com/a.png", .buffer [1]] =
      batchImageUrls envNone "shop.example" 1 [.buffer [1]] := by
  have h := claim_C10 envNone "shop.example" 0 "ftp://example.com/a.png"
    (by decide) (by decide) (by decide)
  exact ⟨h.1, h.2.2.1 [.buffer [1]]⟩

lemma validationMsg_true (s : String) :
    isValidationErrorMsg ("Product validation failed: " ++ s) = true := by
  cases s with
  | mk l =>
    simp only [isValidationErrorMsg, Bool.or_eq_true, beq_iff_eq]
    exact Or.inr (hasPref_append "Product validation failed:".data (' ' :: l))

/-- C5: when the product endpoint answers HTTP 422 with structured
field-level errors, the handler fails with the validation-branch error
carrying `JSON.stringify` of those errors verbatim, and the session's
activity log is returned unchanged (no upload record is appended). -/
theorem claim_C5 (env : ImgEnv) (body : RequestBody) (session : Session)
    (amsg : String) (errs : List (String × List String)) :
    uploadProductHandler env (.httpErr 422 amsg (some { errors := some errs })) body session =
      (.err ("Product validation failed: " ++ stringifyFieldErrors errs), session) ∧
    isValidationErrorMsg ("Product validation failed: " ++ stringifyFieldErrors errs) = true :=
  ⟨rfl, validationMsg_true _⟩

lemma batchImageUrls_len (env : ImgEnv) (shop : String) (srcs : List ImageSource) :
    ∀ k, (batchImageUrls env shop k srcs).length ≤ srcs.length := by
  induction srcs with
  | nil => intro k; simp [batchImageUrls]
  | cons hd tl ih =>
    intro k
    cases h : processOneImage env shop k hd with
    | none =>
      simp only [batchImageUrls, h, List.length_cons]
      have := ih (k + 1)
      omega
    | some r =>
      simp only [batchImageUrls, h, List.length_cons]
      have := ih (k + 1)
      omega

lemma batch_mem (env : ImgEnv) (shop : String) (srcs : List ImageSource) :
    ∀ k j (hj : j < srcs.length) (r : UploadResult),
      processOneImage env shop (k + j) (srcs.get ⟨j, hj⟩) = some r →
      r.publicUrl ∈ batchImageUrls env shop k srcs := by
  induction srcs with
  | nil => intro k j hj; exact absurd hj (by simp)
  | cons hd tl ih =>
    intro k j hj r hr
    cases j with
    | zero =>
      have h0 : processOneImage env shop k hd = some r := by simpa using hr
      simp [batchImageUrls, h0]
    | succ j' =>
      have hj' : j' < tl.length := by simpa using Nat.lt_of_succ_lt_succ hj
      have hr' : processOneImage env shop ((k + 1) + j') (tl.get ⟨j', hj'⟩) = some r := by
        have e : (k + 1) + j' = k + (j' + 1) := by omega
        rw [e]
        simpa using hr
      have hm := ih (k + 1) j' hj' r hr'
      cases h : processOneImage env shop k hd with
      | none => simpa [batchImageUrls, h] using hm
      | some r2 =>
        simp [batchImageUrls, h]
        exact Or.inr hm

lemma batch_order (env : ImgEnv) (shop : String) (srcs : List ImageSource) :
    ∀ k i j (hi : i < srcs.length) (hj : j < srcs.length), i < j →
      ∀ u v : UploadResult,
        processOneImage env shop (k + i) (srcs.get ⟨i, hi⟩) = some u →
        processOneImage env shop (k + j) (srcs.get ⟨j, hj⟩) = some v →
        List.Sublist [u.publicUrl, v.publicUrl] (batchImageUrls env shop k srcs) := by
  induction srcs with
  | nil => intro k i j hi; exact absurd hi (by simp)
  | cons hd tl ih =>
    intro k i j hi hj hij u v hu hv
    cases i with
    | zero =>
      cases j with
      | zero => exact absurd hij (Nat.lt_irrefl 0)
      | succ j' =>
        have hu0 : processOneImage env shop k hd = some u := by simpa using hu
        have hj' : j' < tl.length := by simpa using Nat.lt_of_succ_lt_succ hj
        have hv' : processOneImage env shop ((k + 1) + j') (tl.get ⟨j', hj'⟩) = some v := by
          have e : (k + 1) + j' = k + (j' + 1) := by omega
          rw [e]
          simpa using hv
        have hm := batch_mem env shop tl (k + 1) j' hj' v hv'
        simp only [batchImageUrls, hu0]
        exact (List.singleton_sublist.mpr hm).cons₂ u.publicUrl
    | succ i' =>
      cases j with
      | zero => exact absurd hij (by omega)
      | succ j' =>
        have hi' : i' < tl.length := by simpa using Nat.lt_of_succ_lt_succ hi
        have hj' : j' < tl.length := by simpa using Nat.lt_of_succ_lt_succ hj
        have hu' : processOneImage env shop ((k + 1) + i') (tl.get ⟨i', hi'⟩) = some u := by
          have e : (k + 1) + i' = k + (i' + 1) := by omega
          rw [e]
          simpa using hu
        have hv' : processOneImage env shop ((k + 1) + j') (tl.get ⟨j', hj'⟩) = some v := by
          have e : (k + 1) + j' = k + (j' + 1) := by omega
          rw [e]
          simpa using hv
        have ht := ih (k + 1) i' j' hi' hj' (by omega) u v hu' hv'
        cases h : processOneImage env shop k hd with
        | none => simpa [batchImageUrls, h] using ht
        | some r2 =>
          simp only [batchImageUrls, h]
          exact ht.cons r2.publicUrl

lemma batch_nil_of_fail (env : ImgEnv) (shop : String) (srcs : List ImageSource) :
    ∀ k, (∀ j (hj : j < srcs.length),
        processOneImage env shop (k + j) (srcs.get ⟨j, hj⟩) = none) →
      batchImageUrls env shop k srcs = [] := by
  induction srcs with
  | nil => intro k _; rfl
  | cons hd tl ih =>
    intro k h
    have h0 : processOneImage env shop k hd = none := by simpa using h 0 (by simp)
    have ht : batchImageUrls env shop (k + 1) tl = [] := by
      refine ih (k + 1) ?_
      intro j hj
      have e : (k + 1) + j = k + (j + 1) := by omega
      rw [e]
      simpa using h (j + 1) (by simpa using Nat.succ_lt_succ hj)
    simp [batchImageUrls, h0, ht]

/-- C2: the image batch produces at most as many results as it has
sources, and any two sources that both upload successfully appear in the
collected URL list in their input order. -/
theorem claim_C2 (env : ImgEnv) (shopUrl : String) (srcs : List ImageSource) :
    (batchImageUrls env shopUrl 0 srcs).length ≤ srcs.length ∧
    ∀ (i j : Nat) (hi : i < srcs.length) (hj : j < srcs.length), i < j →
      ∀ u v : UploadResult,
        processOneImage env shopUrl i (srcs.get ⟨i, hi⟩) = some u →
        processOneImage env shopUrl j (srcs.get ⟨j, hj⟩) = some v →
        List.Sublist [u.publicUrl, v.publicUrl] (batchImageUrls env shopUrl 0 srcs) := by
  refine ⟨batchImageUrls_len env shopUrl srcs 0, ?_⟩
  intro i j hi hj hij u v hu hv
  exact batch_order env shopUrl srcs 0 i j hi hj hij u v (by simpa using hu) (by simpa using hv)

/-- C2 (witness): in a three-image batch whose middle download fails, the
two successful uploads appear in input order. -/
theorem claim_C2_witness :
    List.Sublist ["https://cdn.example/a.jpg", "https://cdn.example/b.jpg"]
      (batchImageUrls envBatch "shop.example" 0 srcsBatch) := by
  have h := (claim_C2 envBatch "shop.example" srcsBatch).2 0 2 (by decide) (by decide) (by decide)
    { success := true, uploadId := 1, publicUrl := "https://cdn.example/a.jpg", filename := "a" }
    { success := true, uploadId := 2, publicUrl := "https://cdn.example/b.jpg", filename := "b" }
    (by decide) (by decide)
  exact h

/-- C3: when every image in the batch fails, the collected URL list is
empty; any single failing source is absorbed (the batch continues with
the rest); and with a well-shaped product response the product is still
created with zero images and the handler reports success, so the batch
raises no top-level error. -/
theorem claim_C3 (env : ImgEnv) (body : RequestBody) (session : Session) (p : ProductObj)
    (hall : ∀ j (hj : j < body.images.length),
      processOneImage env body.shopUrl j (body.images.get ⟨j, hj⟩) = none) :
    batchImageUrls env body.shopUrl 0 body.images = [] ∧
    (∀ (i : Nat) (src : ImageSource) (rest : List ImageSource),
      processOneImage env body.shopUrl i src = none →
      batchImageUrls env body.shopUrl i (src :: rest) =
        batchImageUrls env body.shopUrl (i + 1) rest) ∧
    (uploadProductHandler env (.ok (some { product := some p })) body session).1 =
      .ok { product := p,
            productUrl := "https://" ++ stripScheme body.shopUrl ++ "/products/" ++ p.handle,
            adminUrl := "https://" ++ stripScheme body.shopUrl ++ "/admin/products/" ++ toString p.id,
            imageUrls := [], imageCount := 0 } := by
  have hbatch : batchImageUrls env body.shopUrl 0 body.images = [] :=
    batch_nil_of_fail env body.shopUrl body.images 0 (fun j hj => by simpa using hall j hj)
  refine ⟨hbatch, ?_, ?_⟩
  · intro i src rest hfail
    simp [batchImageUrls, hfail]
  · simp [uploadProductHandler, createShopifyProduct, hbatch]

/-- C3 (witness): the theorem at a two-image batch in which every image
fails (dead network, rejecting encoder). -/
theorem claim_C3_witness :
    batchImageUrls envNone bodyAllFail.shopUrl 0 bodyAllFail.images = [] ∧
    (uploadProductHandler envNone
        (.ok (some { product := some { id := 5, title := "Hat", handle := "hat", status := "draft" } }))
        bodyAllFail { shopifyUploads := none }).1 =
      .ok { product := { id := 5, title := "Hat", handle := "hat", status := "draft" },
            productUrl := "https://" ++ stripScheme bodyAllFail.shopUrl ++ "/products/" ++ "hat",
            adminUrl := "https://" ++ stripScheme bodyAllFail.shopUrl ++ "/admin/products/" ++ toString (5 : Nat),
            imageUrls := [], imageCount := 0 } := by
  have h := claim_C3 envNone bodyAllFail { shopifyUploads := none }
    { id := 5, title := "Hat", handle := "hat", status := "draft" } (by decide)
  exact ⟨h.1, h.2.2⟩

/-- C4 (counterexample to the claim as stated): a publish call in which
the asset store answered with an `ftp://` public URL produces a payload
image entry that is not an `https` URL — the double rewrite only touches
a first `http://` occurrence. -/
theorem claim_C4_counterexample :
    (handlerSubmittedPayload envFtp bodyFtp).images = [{ src := "ftp://cdn.example/a.jpg" }] ∧
    jsStartsWith "ftp://cdn.example/a.jpg" "https://" = false :=
  ⟨rfl, rfl⟩

/-- C4 (amended): the submitted payload's image list has exactly one entry
per batch upload result, the i-th entry being the i-th collected URL with
its first `http://` occurrence rewritten; every entry whose originating
URL begins with the literal `http://` or `https://` is an `https` URL. -/
theorem claim_C4 (env : ImgEnv) (body : RequestBody) :
    (handlerSubmittedPayload env body).images.length =
      (batchImageUrls env body.shopUrl 0 body.images).length ∧
    (∀ (i : Nat) (hi : i < (batchImageUrls env body.shopUrl 0 body.images).length)
        (hi' : i < (handlerSubmittedPayload env body).images.length),
      ((handlerSubmittedPayload env body).images.get ⟨i, hi'⟩).src =
        replaceFirstHttp ((batchImageUrls env body.shopUrl 0 body.images).get ⟨i, hi⟩)) ∧
    (∀ (i : Nat) (hi : i < (batchImageUrls env body.shopUrl 0 body.images).length)
        (hi' : i < (handlerSubmittedPayload env body).images.length) (r : String),
      ((batchImageUrls env body.shopUrl 0 body.images).get ⟨i, hi⟩ = "http://" ++ r ∨
        (batchImageUrls env body.shopUrl 0 body.images).get ⟨i, hi⟩ = "https://" ++ r) →
      jsStartsWith (((handlerSubmittedPayload env body).images.get ⟨i, hi'⟩).src) "https://" = true) := by
  have himg : (handlerSubmittedPayload env body).images =
      ((batchImageUrls env body.shopUrl 0 body.images).map replaceFirstHttp).map ImageEntry.mk := rfl
  refine ⟨?_, ?_, ?_⟩
  · rw [himg]; simp
  · intro i hi hi'
    simp [himg, List.get_eq_getElem, List.getElem_map]
  · intro i hi hi' r hor
    have e : ((handlerSubmittedPayload env body).images.get ⟨i, hi'⟩).src =
        replaceFirstHttp ((batchImageUrls env body.shopUrl 0 body.images).get ⟨i, hi⟩) := by
      simp [himg, List.get_eq_getElem, List.getElem_map]
    rw [e]
    exact replaceFirstHttp_secure _ r hor

/-- C4 (witness): the amended theorem at the three-image batch — the
payload has as many entries as the batch produced URLs and its first
entry is an `https` URL. -/
theorem claim_C4_witness :
    (handlerSubmittedPayload envBatch bodyBatch).images.length =
      (batchImageUrls envBatch bodyBatch.shopUrl 0 bodyBatch.images).length ∧
    jsStartsWith (((handlerSubmittedPayload envBatch bodyBatch).images.get ⟨0, by decide⟩).src)
      "https://" = true :=
  ⟨(claim_C4 envBatch bodyBatch).1,
   (claim_C4 envBatch bodyBatch).2.2 0 (by decide) (by decide) "cdn.example/a.jpg" (Or.inr (by decide))⟩
